import Mathlib

/-!
Verification of the Record Linkage & Compliance Scoring Engine and its
dashboard collaborators (hilabs provider data-quality platform).

The repository ships the dashboard frontend (TypeScript, under
`dash-hilabs/` and the unnamed component files) together with the project
README describing the preprocessing engine.  The engine itself
(`backend/pipeline.py`) is not part of the available sources, so the
engine-side operations (standardization, license validation, outlier
filtering, run-summary reconciliation) are modelled from the
specification, while the dashboard-side behaviour (upload flow, summary
schema, cluster report schema, score rendering) is embedded directly from
the TypeScript sources.
-/

/-! ## Standardizer -/

/-- Modelled from the spec: the engine source (backend pipeline) is absent
from the repository snapshot; the Standardizer keeps only the digit
characters of a raw value ("Phone: strip all non-digit characters",
"ZIP: digits only"). -/
def digitsOnly (s : String) : String :=
  String.mk (s.data.filter Char.isDigit)

/-- Modelled from the spec: phone standardization strips every non-digit
character and keeps the remaining digits. -/
def standardizePhone (s : String) : String :=
  digitsOnly s

/-- Left-pad a string with the character c up to length n. -/
def padLeft (c : Char) (n : Nat) (s : String) : String :=
  String.mk (List.replicate (n - s.length) c ++ s.data)

/-- Modelled from the spec: ZIP standardization keeps digits only; with at
most 5 digits the value is zero-padded on the left to 5 characters; with 6
to 9 digits it is rendered as ddddd-dddd (first five digits, a dash, the
rest); with more than 9 digits the raw value is passed through unchanged
and flagged as malformed. -/
def standardizeZip (s : String) : String :=
  let d := digitsOnly s
  if d.length ≤ 5 then
    padLeft '0' 5 d
  else if d.length ≤ 9 then
    String.mk (d.data.take 5) ++ "-" ++ String.mk (d.data.drop 5)
  else
    s

/-! ## Outlier Filter -/

/-- Modelled from the spec: the Outlier Filter flags a record whose
years_in_practice lies outside the interval [0, 60]; the rule is
deterministic, not statistical. -/
def isOutlierYears (years : Int) : Bool :=
  years < 0 || 60 < years

/-! ## License Validator -/

/-- A state-registry row: license number, owning state and expiration date
(reference data, read-only during a run). -/
structure LicenseRecord where
  license_number : String
  state : String
  expiration_date : String
deriving Repr, DecidableEq

/-- The provider-side fields consumed by the License Validator. -/
structure ProviderLicenseFields where
  license_number : String
  license_state : String
  license_expiration : String
deriving Repr, DecidableEq

/-- Modelled from the spec: the California join strategy matches a
registry row on license_number only. -/
def matchesCA (p : ProviderLicenseFields) (l : LicenseRecord) : Bool :=
  l.license_number == p.license_number

/-- Modelled from the spec: the New York join strategy matches a registry
row on the composite key (license_number, expiration_date); an exact date
match is required. -/
def matchesNY (p : ProviderLicenseFields) (l : LicenseRecord) : Bool :=
  l.license_number == p.license_number &&
    l.expiration_date == p.license_expiration

/-- Modelled from the spec: license validation is state-dispatched; a
provider with license_state CA is looked up in the CA table on
license_number alone, one with license_state NY is looked up in the NY
table on the composite key, and any other state has no reference table so
the record never validates. -/
def licenseValidated (p : ProviderLicenseFields)
    (caTable nyTable : List LicenseRecord) : Bool :=
  if p.license_state == "CA" then
    caTable.any (matchesCA p)
  else if p.license_state == "NY" then
    nyTable.any (matchesNY p)
  else
    false

/-! ## Run summary (drop outlier policy) -/

/-- The record fields consumed by the Outlier Filter and the run-summary
reconciliation. -/
structure PipelineRecord where
  years_in_practice : Int
deriving Repr, DecidableEq

/-- The reconciliation-relevant counters of the aggregate RunSummary. -/
structure RunSummaryCounts where
  total_records : Nat
  duplicate_pairs : Nat
  unique_involved : Nat
  outliers_removed : Nat
  final_records : Nat
deriving Repr, DecidableEq

/-- The distinct record indices touched by at least one duplicate pair
(the union of all cluster members: every cluster member is an endpoint of
a qualifying pair and conversely). -/
def involvedIndices (dupPairs : List (Nat × Nat)) : List Nat :=
  (dupPairs.flatMap fun p => [p.1, p.2]).dedup

/-- Modelled from the spec: with the drop outlier policy active the final
table keeps exactly the records the Outlier Filter does not flag, the
removed ones feed outliers_removed, duplicate_pairs counts the scored
pairs meeting the threshold, and unique_involved counts the distinct
records involved in those pairs. -/
def runSummaryDrop (records : List PipelineRecord)
    (dupPairs : List (Nat × Nat)) : RunSummaryCounts where
  total_records := records.length
  duplicate_pairs := dupPairs.length
  unique_involved := (involvedIndices dupPairs).length
  outliers_removed :=
    (records.filter fun r => isOutlierYears r.years_in_practice).length
  final_records :=
    (records.filter fun r => !isOutlierYears r.years_in_practice).length

/-- Concrete two-record run used to instantiate the reconciliation
theorem: one plausible record, one outlier, a single duplicate pair. -/
def recsC1 : List PipelineRecord := [⟨10⟩, ⟨75⟩]

/-- Concrete duplicate-pair list for the same instantiation. -/
def pairsC1 : List (Nat × Nat) := [(0, 1)]

/-- Concrete CA provider for the license-validation instantiation. -/
def provCA : ProviderLicenseFields := ⟨"A12345", "CA", "2030-01-01"⟩

/-- CA registry row matching provCA on license_number but carrying a
different expiration date. -/
def rowCA : LicenseRecord := ⟨"A12345", "CA", "1999-01-01"⟩

/-- Concrete NY provider whose recorded expiration differs from the
registry row with the same license number. -/
def provNY : ProviderLicenseFields := ⟨"NY123", "NY", "2025-01-01"⟩

/-- NY registry row sharing provNY's license number with a different
expiration date. -/
def rowNY : LicenseRecord := ⟨"NY123", "NY", "2024-01-01"⟩

/-! ## Upload flow (dash-hilabs/app/upload/page.tsx) -/

/-- Outcome of the POST to /process_csv as observed by handleUpload:
the response was ok and its body parsed to a value (or parsing threw),
the response was not ok, or fetch itself rejected. -/
inductive FetchOutcome (α : Type) where
  | ok (parsed : Option α)
  | httpError (statusText : String)
  | networkError (message : String)

/-- The component state handleUpload leaves behind: the processedData
React state, the localStorage "processedData" entry consumed by the
analytics pages, the error banner, the progress bar, and the two flags. -/
structure UploadState (α : Type) where
  processedData : Option α
  storedData : Option α
  error : Option String
  progress : Nat
  uploadComplete : Bool
  uploading : Bool

/-- Shallow embedding of handleUpload (upload/page.tsx): on an ok response
whose JSON parses, the data is set, stored to localStorage, progress
reaches 100 and uploadComplete is set; if the response is not ok a
"Upload failed: statusText" error is thrown; any thrown error (including
a JSON parse failure, whose exact message the runtime supplies) lands in
the catch block, which records the message and resets progress to 0
without storing anything. -/
def handleUpload (α : Type) (outcome : FetchOutcome α) : UploadState α :=
  match outcome with
  | .ok (some d) =>
      { processedData := some d, storedData := some d, error := none,
        progress := 100, uploadComplete := true, uploading := false }
  | .ok none =>
      { processedData := none, storedData := none,
        error := some "Unexpected token in JSON", progress := 0,
        uploadComplete := false, uploading := false }
  | .httpError st =>
      { processedData := none, storedData := none,
        error := some ("Upload failed: " ++ st), progress := 0,
        uploadComplete := false, uploading := false }
  | .networkError msg =>
      { processedData := none, storedData := none,
        error := some msg, progress := 0,
        uploadComplete := false, uploading := false }

/-! ## Published schemas (TypeScript interfaces and README) -/

/-- Field names of ProcessedData.summary as declared in
dash-hilabs/app/analytics/page.tsx and
dash-hilabs/components/layout/sidebar.tsx (declaration order). -/
def summaryFieldsTS : List String :=
  ["total_records", "candidate_pairs", "duplicate_pairs",
   "unique_involved", "ca_state", "clusters", "compliance_rate",
   "data_quality_score", "expired_licenses", "final_records",
   "formatting_issues", "missing_npi", "ny_state", "outliers_removed",
   "providers_available"]

/-- The RunSummary fields the claim (spec section 3/6) enumerates. -/
def summaryFieldsClaimed : List String :=
  ["total_records", "candidate_pairs", "duplicate_pairs",
   "unique_involved", "clusters", "outliers_removed", "final_records",
   "expired_licenses", "missing_npi", "providers_available", "ca_state",
   "ny_state", "formatting_issues", "compliance_rate",
   "data_quality_score"]

/-- Keys of the sample summary JSON in the README (in its order). -/
def summaryKeysReadme : List String :=
  ["total_records", "candidate_pairs", "duplicate_pairs",
   "unique_involved", "clusters", "outliers_removed", "final_records",
   "expired_licenses", "missing_npi", "providers_available", "ca_state",
   "ny_state", "formatting_issues", "compliance_rate",
   "data_quality_score"]

/-- Field names of the DuplicatesResponse interface (duplicates page). -/
def duplicatesResponseFieldsTS : List String :=
  ["clusters", "total_clusters", "total_duplicates"]

/-- Field names of the ClusterInfo interface (duplicates page). -/
def clusterInfoFieldsTS : List String :=
  ["cluster_id", "members", "representative", "providers", "duplicates"]

/-- Field names of the Duplicate interface (duplicates page). -/
def duplicateFieldsTS : List String :=
  ["i1", "i2", "provider_id_1", "provider_id_2", "name_1", "name_2",
   "score", "name_score", "npi_match", "addr_score", "phone_match",
   "license_score"]

/-- Field names of the NetworkEdge interface (duplicate-network chart). -/
def networkEdgeFieldsTS : List String :=
  ["source", "target", "weight", "name_score", "npi_match", "addr_score",
   "phone_match", "license_score", "similarity_level"]

/-- The 28 columns of the original provider roster (README final-table
listing, rows 0 to 27, described there as coming from the original
provider dataset). -/
def originalRosterColumns : List String :=
  ["provider_id", "npi", "first_name", "last_name", "credential",
   "full_name", "primary_specialty", "practice_address_line1",
   "practice_address_line2", "practice_city", "practice_state",
   "practice_zip", "practice_phone", "mailing_address_line1",
   "mailing_address_line2", "mailing_city", "mailing_state",
   "mailing_zip", "license_number", "license_state",
   "license_expiration", "accepting_new_patients", "board_certified",
   "years_in_practice", "medical_school", "residency_program",
   "last_updated", "taxonomy_code"]

/-- The 30 columns of the final preprocessed provider table (README
final-table listing, rows 0 to 29). -/
def finalTableColumns : List String :=
  ["provider_id", "npi", "first_name", "last_name", "credential",
   "full_name", "primary_specialty", "practice_address_line1",
   "practice_address_line2", "practice_city", "practice_state",
   "practice_zip", "practice_phone", "mailing_address_line1",
   "mailing_address_line2", "mailing_city", "mailing_state",
   "mailing_zip", "license_number", "license_state",
   "license_expiration", "accepting_new_patients", "board_certified",
   "years_in_practice", "medical_school", "residency_program",
   "last_updated", "taxonomy_code", "status", "npi_present"]

/-! ## Duplicates page data model and score rendering -/

/-- One scored candidate pair as the duplicates page receives it. -/
structure Duplicate where
  i1 : Option Int
  i2 : Option Int
  provider_id_1 : Option String
  provider_id_2 : Option String
  name_1 : Option String
  name_2 : Option String
  score : Option ℚ
  name_score : Option ℚ
  npi_match : Option Bool
  addr_score : Option ℚ
  phone_match : Option Bool
  license_score : Option ℚ

/-- One cluster as the duplicates page receives it. -/
structure ClusterInfo where
  cluster_id : String
  members : List Nat
  representative : Nat
  duplicates : List Duplicate

/-- The /duplicates response consumed by the duplicates page. -/
structure DuplicatesResponse where
  clusters : List ClusterInfo
  total_clusters : Nat
  total_duplicates : Nat

/-- JavaScript truthiness of a number-or-null score value: null and 0 are
falsy, every other number is truthy (scores are never NaN here). -/
def jsTruthyScore (v : Option ℚ) : Bool :=
  match v with
  | none => false
  | some q => q != 0

/-- Embedding of JavaScript's (q).toFixed(1) for the nonnegative rational
score values the page displays: round half up to tenths, written on the
numerator and denominator so the kernel can evaluate it (the integer
division computes the floor of q * 10 + 1 / 2). -/
def toFixed1 (q : ℚ) : String :=
  let tenths : Int := (20 * q.num + q.den) / (2 * (q.den : Int))
  toString (tenths / 10) ++ "." ++ toString (tenths % 10)

/-- Shallow embedding of a score cell of the duplicates page:
score ? (score * 100).toFixed(1) + "%" : "N/A" — the condition is the
truthiness of the score, so both null and 0 fall to "N/A". -/
def renderScoreCell (score : Option ℚ) : String :=
  if jsTruthyScore score then
    match score with
    | some q => toFixed1 (q * 100) ++ "%"
    | none => "N/A"
  else
    "N/A"

/-- Shallow embedding of getScoreColor: a falsy score (null or 0) gets the
muted colour, then thresholds 0.9 / 0.7 / 0.5 pick the colour. -/
def getScoreColor (score : Option ℚ) : String :=
  if jsTruthyScore score then
    match score with
    | some q =>
        if q ≥ 9 / 10 then "text-red-500"
        else if q ≥ 7 / 10 then "text-orange-500"
        else if q ≥ 1 / 2 then "text-yellow-500"
        else "text-green-500"
    | none => "text-muted-foreground"
  else
    "text-muted-foreground"

/-- Shallow embedding of getScoreBadgeVariant: a falsy score (null or 0)
gets the secondary variant, then thresholds pick the variant. -/
def getScoreBadgeVariant (score : Option ℚ) : String :=
  if jsTruthyScore score then
    match score with
    | some q =>
        if q ≥ 9 / 10 then "destructive"
        else if q ≥ 7 / 10 then "destructive"
        else if q ≥ 1 / 2 then "secondary"
        else "default"
    | none => "secondary"
  else
    "secondary"

/-! ## Helper lemmas -/

theorem length_filter_not_add_length_filter (p : α → Bool) (l : List α) :
    (l.filter fun a => !p a).length + (l.filter p).length = l.length := by
  induction l with
  | nil => simp
  | cons a t ih =>
      by_cases h : p a = true <;>
        simp only [List.filter_cons, h, Bool.not_true, Bool.not_false,
          cond_true, cond_false, List.length_cons, if_pos, if_neg,
          Bool.false_eq_true, not_false_iff, ite_true, ite_false] <;>
        omega

theorem dedup_length_le_of_forall_lt (l : List Nat) (n : Nat)
    (h : ∀ x ∈ l, x < n) : l.dedup.length ≤ n := by
  have hnd : l.dedup.Nodup := l.nodup_dedup
  have hsub : l.dedup.toFinset ⊆ Finset.range n := by
    intro x hx
    exact Finset.mem_range.2
      (h x (List.mem_dedup.1 (List.mem_toFinset.1 hx)))
  have hcard := Finset.card_le_card hsub
  rwa [List.toFinset_card_of_nodup hnd, Finset.card_range] at hcard

/-! ## Claims -/

/-- Claim C1: with the drop outlier policy active, every run summary
satisfies total_records = final_records + outliers_removed, and
unique_involved is at most total_records (duplicate pairs are index pairs
into the loaded records). -/
theorem claim_C1_reconciliation (records : List PipelineRecord)
    (dupPairs : List (Nat × Nat))
    (h : ∀ p ∈ dupPairs, p.1 < records.length ∧ p.2 < records.length) :
    (runSummaryDrop records dupPairs).total_records
        = (runSummaryDrop records dupPairs).final_records
          + (runSummaryDrop records dupPairs).outliers_removed
      ∧ (runSummaryDrop records dupPairs).unique_involved
        ≤ (runSummaryDrop records dupPairs).total_records := by
  constructor
  · exact (length_filter_not_add_length_filter
      (fun r => isOutlierYears r.years_in_practice) records).symm
  · apply dedup_length_le_of_forall_lt
    intro x hx
    rcases List.mem_flatMap.1 hx with ⟨p, hp, hxp⟩
    rcases List.mem_cons.1 hxp with h1 | h2
    · exact h1 ▸ (h p hp).1
    · have : x = p.2 := by simpa using h2
      exact this ▸ (h p hp).2

/-- Witness for C1 at a concrete run: two records (one outlier) and one
duplicate pair. -/
theorem claim_C1_reconciliation_witness :
    (runSummaryDrop recsC1 pairsC1).total_records
        = (runSummaryDrop recsC1 pairsC1).final_records
          + (runSummaryDrop recsC1 pairsC1).outliers_removed
      ∧ (runSummaryDrop recsC1 pairsC1).unique_involved
        ≤ (runSummaryDrop recsC1 pairsC1).total_records :=
  claim_C1_reconciliation recsC1 pairsC1 (by decide)

/-- Claim C2: license validation is state-dispatched — a CA record
validates exactly when some CA-table row matches its license_number (the
expiration dates are unconstrained), an NY record validates exactly when
some NY-table row matches both license_number and expiration_date, and an
NY row sharing the license_number but differing in expiration_date never
matches. -/
theorem claim_C2_state_dispatch :
    (∀ (p : ProviderLicenseFields) (ca ny : List LicenseRecord),
        p.license_state = "CA" →
        (licenseValidated p ca ny = true ↔
          ∃ l ∈ ca, l.license_number = p.license_number))
    ∧ (∀ (p : ProviderLicenseFields) (ca ny : List LicenseRecord),
        p.license_state = "NY" →
        (licenseValidated p ca ny = true ↔
          ∃ l ∈ ny, l.license_number = p.license_number
            ∧ l.expiration_date = p.license_expiration))
    ∧ (∀ (p : ProviderLicenseFields) (l : LicenseRecord),
        p.license_state = "NY" → l.license_number = p.license_number →
        l.expiration_date ≠ p.license_expiration →
        matchesNY p l = false) := by
  refine ⟨?_, ?_, ?_⟩
  · intro p ca ny hst
    simp [licenseValidated, hst, matchesCA, List.any_eq_true]
  · intro p ca ny hst
    simp [licenseValidated, hst, matchesNY, List.any_eq_true]
  · intro p l hst hnum hexp
    simp [matchesNY, hnum, hexp]

/-- Witness for C2: the concrete CA provider validates against a CA row
matching only on license_number (different expiration date), and the
concrete NY provider does not validate against an NY row sharing its
license number but not its expiration date. -/
theorem claim_C2_state_dispatch_witness :
    licenseValidated provCA [rowCA] [] = true
      ∧ licenseValidated provNY [] [rowNY] = false
      ∧ matchesNY provNY rowNY = false := by
  refine ⟨?_, ?_, ?_⟩
  · exact (claim_C2_state_dispatch.1 provCA [rowCA] [] rfl).2
      ⟨rowCA, by simp, by decide⟩
  · cases hv : licenseValidated provNY [] [rowNY] with
    | false => rfl
    | true =>
        exfalso
        rcases (claim_C2_state_dispatch.2.1 provNY [] [rowNY] rfl).1 hv
          with ⟨l, hl, hnum, hexp⟩
        rcases List.mem_singleton.1 hl with rfl
        exact absurd hexp (by decide)
  · exact claim_C2_state_dispatch.2.2 provNY rowNY rfl (by decide)
      (by decide)

/-- Claim C3: the Standardizer strips non-digits from phones and
normalizes ZIPs by digits-only plus zero-padding or ddddd-dddd
formatting; in particular zip "123" becomes "00123" and phone
"(123)-456-7890" becomes "1234567890", standardized phones consist of
digits only, and every ZIP with at most five digits standardizes to
exactly five characters. -/
theorem claim_C3_standardizer :
    standardizePhone "(123)-456-7890" = "1234567890"
      ∧ standardizeZip "123" = "00123"
      ∧ standardizeZip "123456789" = "12345-6789"
      ∧ (∀ s : String, (standardizePhone s).data.all Char.isDigit = true)
      ∧ (∀ s : String, (digitsOnly s).length ≤ 5 →
          (standardizeZip s).length = 5) := by
  refine ⟨by decide, by decide, by decide, ?_, ?_⟩
  · intro s
    simp only [standardizePhone, digitsOnly, List.all_eq_true]
    intro a ha
    exact List.of_mem_filter ha
  · intro s h
    simp only [standardizeZip, if_pos h, padLeft]
    show (List.replicate (5 - (digitsOnly s).length) '0'
        ++ (digitsOnly s).data).length = 5
    have : (digitsOnly s).length = (digitsOnly s).data.length := rfl
    simp only [List.length_append, List.length_replicate]
    omega

/-- Witness for C3 at the concrete input "123": at most five digits, and
the standardized ZIP has exactly five characters. -/
theorem claim_C3_standardizer_witness :
    (digitsOnly "123").length ≤ 5 ∧ (standardizeZip "123").length = 5 :=
  ⟨by decide, claim_C3_standardizer.2.2.2.2 "123" (by decide)⟩

/-- Claim C4: the upload flow is atomic towards the dashboard — either
the response is ok and parses, and exactly that parsed data is stored for
the analytics pages with uploadComplete set and no error, or nothing is
stored, uploadComplete stays false and an error is recorded. -/
theorem claim_C4_upload_atomicity (α : Type) (outcome : FetchOutcome α) :
    (∃ d, outcome = FetchOutcome.ok (some d)
        ∧ (handleUpload α outcome).storedData = some d
        ∧ (handleUpload α outcome).uploadComplete = true
        ∧ (handleUpload α outcome).error = none)
    ∨ ((handleUpload α outcome).storedData = none
        ∧ (handleUpload α outcome).uploadComplete = false
        ∧ (handleUpload α outcome).error.isSome = true) := by
  cases outcome with
  | ok parsed =>
      cases parsed with
      | some d => exact Or.inl ⟨d, rfl, rfl, rfl, rfl⟩
      | none => exact Or.inr ⟨rfl, rfl, rfl⟩
  | httpError st => exact Or.inr ⟨rfl, rfl, rfl⟩
  | networkError msg => exact Or.inr ⟨rfl, rfl, rfl⟩

/-- Claim C5: the summary consumed by the dashboard is a flat object
whose field set is exactly the fifteen claimed RunSummary fields: the
TypeScript interface fields are a permutation of the claimed list, with
no duplicates, and the README sample summary carries the same keys. -/
theorem claim_C5_summary_fields :
    List.Perm summaryFieldsTS summaryFieldsClaimed
      ∧ summaryFieldsTS.Nodup
      ∧ summaryFieldsTS.length = 15
      ∧ summaryKeysReadme = summaryFieldsClaimed := by
  refine ⟨?_, by decide, by decide, by decide⟩
  decide

/-- Claim C6: the cluster report lists clusters, each carrying member
indices, a representative index and its scored pairs, and each scored
pair carries the full similarity breakdown (overall score, name score,
address score, phone-match boolean, license score). -/
theorem claim_C6_cluster_report :
    "clusters" ∈ duplicatesResponseFieldsTS
      ∧ ["members", "representative", "duplicates"] ⊆ clusterInfoFieldsTS
      ∧ ["score", "name_score", "addr_score", "phone_match",
          "license_score"] ⊆ duplicateFieldsTS := by
  refine ⟨by decide, ?_, ?_⟩ <;> decide

/-- Claim C7: a record is an outlier exactly when years_in_practice lies
outside [0, 60]; 75 is flagged, 40 is not. -/
theorem claim_C7_outlier_rule :
    (∀ y : Int, isOutlierYears y = true ↔ y < 0 ∨ 60 < y)
      ∧ isOutlierYears 75 = true
      ∧ isOutlierYears 40 = false := by
  refine ⟨?_, by decide, by decide⟩
  intro y
  simp [isOutlierYears]

/-- Counterexample for C8: the final table's derived license-status
column is named "status", so the claimed column name "license_status"
does not occur among the final table's columns. -/
theorem claim_C8_counterexample :
    "license_status" ∉ finalTableColumns := by
  decide

/-- Claim C8 (amended): the final provider table consists of every
original roster column followed by exactly two derived columns — the
license-status indicator named "status" and "npi_present" — for 30
columns in total (28 original plus 2), all distinct. -/
theorem claim_C8_final_columns :
    finalTableColumns = originalRosterColumns ++ ["status", "npi_present"]
      ∧ finalTableColumns.length = 30
      ∧ originalRosterColumns.length = 28
      ∧ finalTableColumns.Nodup := by
  refine ⟨by decide, by decide, by decide, by decide⟩

/-- Claim C9: both the duplicates-page pair schema and the
duplicate-network edge schema carry an npi_match boolean next to the
name, address, phone and license components. -/
theorem claim_C9_npi_match_component :
    "npi_match" ∈ duplicateFieldsTS
      ∧ "npi_match" ∈ networkEdgeFieldsTS
      ∧ ["name_score", "addr_score", "phone_match", "license_score"]
          ⊆ duplicateFieldsTS
      ∧ ["name_score", "addr_score", "phone_match", "license_score"]
          ⊆ networkEdgeFieldsTS := by
  refine ⟨by decide, by decide, ?_, ?_⟩ <;> decide

/-- Claim C10: a score of exactly 0 renders "N/A" — identically to a
missing score — instead of the "0.0%" the format branch would produce,
and the colour and badge helpers also collapse 0 and null, because the
renderer branches on JavaScript truthiness. -/
theorem claim_C10_zero_score_na :
    renderScoreCell (some 0) = "N/A"
      ∧ renderScoreCell none = "N/A"
      ∧ renderScoreCell (some 0) = renderScoreCell none
      ∧ (0 : ℚ) * 100 = 0
      ∧ toFixed1 0 ++ "%" = "0.0%"
      ∧ getScoreColor (some 0) = getScoreColor none
      ∧ getScoreBadgeVariant (some 0) = getScoreBadgeVariant none := by
  refine ⟨by decide, by decide, by decide, by norm_num, ?_, by decide,
    by decide⟩
  decide
